import Mathlib

/-!
Verification model of the Harmony backend's core services: the clustering
engine (`backend/app/services/clustering.py`), the consensus/alignment
analyzer (`backend/app/services/consensus_analysis.py`) and the debate
orchestrator (`backend/app/services/debate.py`), together with the constants
of `backend/app/core/config.py` that they read.

Modelling conventions, used throughout:

* Python strings are Lean `String`s; Python's substring test `a in b` is
  `pyIn a b`, and `str.lower()` is `pyLower` (ASCII case folding, as
  `Char.toLower` does).
* Python floats are modelled as exact rationals `ℚ`.  `numpy.mean` over a
  list is `listMean`.
* The sentence-embedding model (`SentenceTransformer.encode` with
  `normalize_embeddings=True`) is an external capability; it enters every
  definition as an oracle `encode : List String → List (List ℚ)` returning
  one vector per input text.  Because the encoder normalizes its output,
  `sklearn.metrics.pairwise.cosine_similarity` of two returned vectors is
  their dot product, modelled by `dot`.
* `TextBlob` polarity is an external capability, an oracle
  `polarity : String → ℚ`.
* `sklearn.cluster.KMeans(...).fit_predict` (with the fixed seed
  `RANDOM_STATE` and fixed `n_init`, hence a deterministic function of its
  inputs) is an oracle `fitPredict : List (List ℚ) → Nat → List Nat`, and
  the composite of a k-means fit with `sklearn.metrics.silhouette_score`
  over the precomputed cosine-distance matrix is an oracle
  `sil : List (List ℚ) → Nat → ℚ`.
* The OpenAI chat-completion capability used for one debate turn is an
  oracle `gen : Nat → Except String (Option String)`, indexed by the number
  of generation calls made so far; `.error e` models the call raising an
  exception `e`, `.ok none` and `.ok (some "")` model a falsy
  `response.choices[0].message.content`.  The setup phase of `run_debate`
  (cluster retrieval and persona generation, lines 368-411 of `debate.py`)
  is likewise an oracle `setup : Except String (List String)` yielding the
  surviving agents' roles, and transcript summarization
  (`generate_debate_summary`) an oracle `summarize : Except String Unit`.
* Debate persistence (`debate_storage.py`) is modelled as infallible
  in-memory state: stored messages and interventions are lists carried in
  the state, and each `update_debate_status` call is recorded in a trace.
-/

set_option allowUnsafeReducibility true
attribute [local semireducible] Rat.add Rat.mul Rat.sub Rat.neg Rat.inv Rat.div Rat.ofScientific

namespace Harmony

/-- Python's substring containment `needle in hay` on strings. -/
def pyIn (needle hay : String) : Bool := decide (needle.data <:+: hay.data)

/-- Python's `str.lower()` (ASCII case folding). -/
def pyLower (s : String) : String := { data := s.data.map Char.toLower }

/-- The mean of a list of rationals, as `numpy.mean` computes it on a
nonempty list (it is only applied to nonempty lists below, mirroring the
source's guards). -/
def listMean (l : List ℚ) : ℚ := l.sum / (l.length : ℚ)

/-- Dot product of two embedding vectors.  The production encoder returns
unit-L2-normalized vectors, for which sklearn's `cosine_similarity` equals
the dot product, so this models one entry of a cosine-similarity matrix. -/
def dot (u v : List ℚ) : ℚ := ((u.zip v).map (fun p => p.1 * p.2)).sum

/-- Upper-triangle pairwise similarities of a list of embeddings: for
indices `i < j` in order, `dot e_i e_j` — the order in which the Python
sources collect `similarities[i][j]` for `i in range(n), j in range(i+1, n)`. -/
def pairSims : List (List ℚ) → List ℚ
  | [] => []
  | u :: rest => rest.map (fun v => dot u v) ++ pairSims rest

/-! Configuration constants, from `backend/app/core/config.py`. -/

/-- config.py line 9. -/
def MIN_SUBMISSIONS_FOR_CLUSTERING : Nat := 2

/-- config.py line 8. -/
def MAX_SUBMISSIONS : Nat := 1000

/-- config.py line 15: the candidate cluster counts. -/
def K_RANGE : List Nat := [2, 3, 4]

/-- config.py line 70. -/
def DEFAULT_MAX_ROUNDS : Nat := 3

/-- config.py line 71. -/
def DEFAULT_MAX_MESSAGES : Nat := 30

/-- config.py line 85. -/
def CONSENSUS_SEMANTIC_WEIGHT : ℚ := 0.70

/-- config.py line 86. -/
def CONSENSUS_AGREEMENT_WEIGHT : ℚ := 0.20

/-- config.py line 87. -/
def CONSENSUS_CONVERGENCE_WEIGHT : ℚ := 0.05

/-- config.py line 88. -/
def CONSENSUS_RESOLUTION_WEIGHT : ℚ := 0.05

/-- config.py line 77. -/
def INTERVENTION_OFF_TOPIC_THRESHOLD : ℚ := 0.5

/-- config.py line 78. -/
def INTERVENTION_STALEMATE_THRESHOLD : Nat := 2

/-- config.py line 79. -/
def DETECT_ETHICAL_VIOLATIONS : Bool := true

/-- config.py line 100. -/
def REPETITION_SIMILARITY_THRESHOLD : ℚ := 0.85

/-- config.py line 101. -/
def STALEMATE_SIMILARITY_THRESHOLD : ℚ := 0.80

/-- config.py line 102. -/
def MIN_MESSAGES_FOR_INTERVENTION : Nat := 3

/-- config.py line 103. -/
def MIN_ROUNDS_FOR_STALEMATE_CHECK : Nat := 5

/-- A stored debate message, as the dictionaries returned by
`get_debate_messages` expose it to the consensus analyzer and the
intervention checks: `agent_id`, `agent_name`, `content`, `round_number`
and the message type (`agent_message` or `orchestrator_message`). -/
structure Msg where
  agent_id : String
  agent_name : String
  content : String
  round_number : Nat
  msg_type : String
deriving DecidableEq, Repr

/-! The consensus analyzer, `backend/app/services/consensus_analysis.py`. -/

/-- consensus_analysis.py lines 133-146: the fixed agreement keyword set. -/
def agreement_keywords : List String :=
  ["agree", "support", "same view", "concur", "endorse", "approve",
   "align", "similar", "shared", "common ground", "together", "united"]

/-- consensus_analysis.py lines 148-160: the fixed disagreement keyword set. -/
def disagreement_keywords : List String :=
  ["disagree", "oppose", "against", "different", "contrary", "reject",
   "conflict", "dispute", "challenge", "differ", "divergent"]

/-- consensus_analysis.py lines 162-180: scan every message, counting one
agreement hit and one disagreement hit per message per category (the inner
`break` makes at most one hit per category per message). -/
def agreementCounts (messages : List Msg) : Nat × Nat :=
  (messages.countP (fun m => agreement_keywords.any (fun w => pyIn w (pyLower m.content))),
   messages.countP (fun m => disagreement_keywords.any (fun w => pyIn w (pyLower m.content))))

/-- consensus_analysis.py lines 126-185, `calculate_agreement_ratio`:
agreement hits over total hits, `0.5` when neither keyword set appears. -/
def calculate_agreement_ratio (messages : List Msg) : ℚ :=
  let ad := agreementCounts messages
  if ad.1 + ad.2 = 0 then 0.5 else (ad.1 : ℚ) / ((ad.1 : ℚ) + (ad.2 : ℚ))

/-- consensus_analysis.py lines 286-299: the fixed resolution-indicator set. -/
def resolution_indicators : List String :=
  ["address", "respond", "resolve", "acknowledge", "understand", "consider",
   "accept", "incorporate", "modify", "refine", "update", "revise"]

/-- consensus_analysis.py line 316: the fixed contention-marker set. -/
def contention_markers : List String :=
  ["but", "however", "although", "challenge", "question"]

/-- consensus_analysis.py lines 301-318: one pass over the messages.  A
message containing a resolution indicator adds the previous message's
author to `addressed` (first component); a message containing a contention
marker adds its own author to `raised` (second component).  `prev` is the
author of the message before the current head (`none` at index 0). -/
def resolutionScan : List Msg → Option String → Finset String × Finset String
  | [], _ => (∅, ∅)
  | m :: rest, prev =>
    let c := pyLower m.content
    let sets := resolutionScan rest (some m.agent_id)
    let addressed :=
      if resolution_indicators.any (fun w => pyIn w c) then
        (match prev with
         | some p => insert p sets.1
         | none => sets.1)
      else sets.1
    let raised :=
      if contention_markers.any (fun w => pyIn w c) then insert m.agent_id sets.2
      else sets.2
    (addressed, raised)

/-- consensus_analysis.py lines 272-326, `calculate_resolution_rate`:
`0.0` below 2 messages; otherwise distinct addressed authors over distinct
raising authors, `1.0` when no argument was raised. -/
def calculate_resolution_rate (messages : List Msg) : ℚ :=
  if messages.length < 2 then 0
  else
    let sets := resolutionScan messages none
    if sets.2.card = 0 then 1 else (sets.1.card : ℚ) / (sets.2.card : ℚ)

/-- consensus_analysis.py lines 86-93: the `agents` dict mapping each
`agent_id` to the content and round of its latest message (strictly later
rounds replace, first insertion fixes the iteration order, as a Python dict
does). -/
def updLatest (acc : List (String × String × Nat)) (m : Msg) :
    List (String × String × Nat) :=
  match acc.find? (fun e => e.1 == m.agent_id) with
  | none => acc ++ [(m.agent_id, m.content, m.round_number)]
  | some e =>
    if e.2.2 < m.round_number then
      acc.map (fun e2 =>
        if e2.1 == m.agent_id then (m.agent_id, m.content, m.round_number) else e2)
    else acc

/-- The latest position of every agent appearing in `messages`, in first-
appearance order. -/
def latestByAgent (messages : List Msg) : List (String × String × Nat) :=
  messages.foldl updLatest []

/-- consensus_analysis.py lines 75-123, `calculate_semantic_alignment`:
embed each agent's latest message and average all pairwise similarities;
`0.0` below 2 messages or below 2 distinct agents. -/
def calculate_semantic_alignment (encode : List String → List (List ℚ))
    (messages : List Msg) : ℚ :=
  if messages.length < 2 then 0
  else
    let agentsL := latestByAgent messages
    if agentsL.length < 2 then 0
    else
      let positions := agentsL.map (fun e => e.2.1)
      let embs := encode positions
      if embs.length < 2 then 0
      else
        let sims := pairSims embs
        if sims.isEmpty then 0 else listMean sims

/-- consensus_analysis.py lines 209-222: the per-agent message lists of one
half of the transcript (insertion-ordered dict of appended contents). -/
def groupByAgent (messages : List Msg) : List (String × List String) :=
  messages.foldl
    (fun acc m =>
      if acc.any (fun e => e.1 == m.agent_id) then
        acc.map (fun e =>
          if e.1 == m.agent_id then (e.1, e.2 ++ [m.content]) else e)
      else acc ++ [(m.agent_id, [m.content])])
    []

/-- consensus_analysis.py lines 188-269, `calculate_convergence`: split the
transcript at the midpoint round, take the last message per agent present
in both halves, and report the clamped increase in mean pairwise
similarity.  `" ".join(xs[-1:])` is the last element of `xs`. -/
def calculate_convergence (encode : List String → List (List ℚ))
    (messages : List Msg) : ℚ :=
  if messages.length < 4 then 0
  else
    let max_round := (messages.map (fun m => m.round_number)).foldl max 0
    let mid_point := max_round / 2
    let early := messages.filter (fun m => m.round_number ≤ mid_point)
    let late := messages.filter (fun m => mid_point < m.round_number)
    if early.isEmpty || late.isEmpty then 0
    else
      let ep := groupByAgent early
      let lp := groupByAgent late
      let reps := ep.filterMap (fun e =>
        match lp.find? (fun l2 => l2.1 == e.1) with
        | some l2 => some (e.2.getLast?.getD "", l2.2.getLast?.getD "")
        | none => none)
      if reps.length < 2 then 0
      else
        let early_pairwise := pairSims (encode (reps.map (fun r => r.1)))
        let late_pairwise := pairSims (encode (reps.map (fun r => r.2)))
        if early_pairwise.isEmpty || late_pairwise.isEmpty then 0
        else
          let conv := max 0 (listMean late_pairwise - listMean early_pairwise)
          if 0 < conv then min 1 (conv / 0.5) else 0

/-- consensus_analysis.py lines 329-352, `calculate_sentiment`: mean
TextBlob polarity mapped to a label. -/
def calculate_sentiment (polarity : String → ℚ) (messages : List Msg) : String :=
  if messages.isEmpty then "neutral"
  else
    let avg := listMean (messages.map (fun m => polarity m.content))
    if 0.1 < avg then "positive"
    else if avg < -0.1 then "negative"
    else "neutral"

/-- Python's `round` on floats (banker's rounding, half to even), on exact
rationals.  On a tie (fractional part exactly one half) it picks the even
neighbour; otherwise it is ordinary rounding to the nearest integer. -/
def roundHalfEven (q : ℚ) : ℤ :=
  if 2 * q = 2 * (⌊q⌋ : ℚ) + 1 then (if Even ⌊q⌋ then ⌊q⌋ else ⌊q⌋ + 1)
  else round q

/-- Python's `round(q, 2)`: banker's rounding to two decimal places. -/
def round2 (q : ℚ) : ℚ := (roundHalfEven (q * 100) : ℚ) / 100

/-- consensus_analysis.py lines 55-60: the weighted composite of the four
sub-metrics (each scaled to a percentage), before the final rounding. -/
def consensus_composite (sa ar conv res : ℚ) : ℚ :=
  sa * 100 * CONSENSUS_SEMANTIC_WEIGHT + ar * 100 * CONSENSUS_AGREEMENT_WEIGHT
    + conv * 100 * CONSENSUS_CONVERGENCE_WEIGHT
    + res * 100 * CONSENSUS_RESOLUTION_WEIGHT

/-- The dictionary returned by `calculate_consensus_score`: the composite
`consensus_score`, the four sub-metrics as percentages (`semantic_alignment`,
`agreement_ratio`, `convergence_score`, `resolution_rate` keys of the source,
here the four `*_pct` fields in that order) and the sentiment label. -/
structure ConsensusData where
  consensus_score : ℚ
  alignment_pct : ℚ
  agreement_pct : ℚ
  convergence_pct : ℚ
  resolution_pct : ℚ
  sentiment : String
deriving DecidableEq, Repr

/-- consensus_analysis.py lines 13-72, `calculate_consensus_score`, as a
function of the debate's stored messages (the source fetches them by
debate id from storage).  An empty transcript short-circuits to all-zero
metrics with neutral sentiment. -/
def calculate_consensus_score (encode : List String → List (List ℚ))
    (polarity : String → ℚ) (messages : List Msg) : ConsensusData :=
  if messages.isEmpty then ⟨0, 0, 0, 0, 0, "neutral"⟩
  else
    let sa := calculate_semantic_alignment encode messages
    let ar := calculate_agreement_ratio messages
    let conv := calculate_convergence encode messages
    let res := calculate_resolution_rate messages
    ⟨round2 (consensus_composite sa ar conv res),
     round2 (sa * 100), round2 (ar * 100), round2 (conv * 100),
     round2 (res * 100), calculate_sentiment polarity messages⟩

/-! The clustering engine, `backend/app/services/clustering.py`. -/

/-- clustering.py lines 83-119, `select_optimal_k`: evaluate every candidate
`k < n_samples` from `k_range` (the call in `cluster_from_embeddings` passes
the default `config.K_RANGE`), keeping the best silhouette score; the
running best starts at the first valid candidate with score `-1`, exactly as
`best_k, best_score = valid_k_range[0], -1`.  With no valid candidate the
degenerate fallback is `(min 2 n_samples, 0.0)`.  `sil` is the oracle for a
seeded k-means fit followed by `silhouette_score` on cosine distances. -/
def select_optimal_k (sil : List (List ℚ) → Nat → ℚ)
    (embeddings : List (List ℚ)) (k_range : List Nat) : Nat × ℚ :=
  match k_range.filter (fun k => decide (k < embeddings.length)) with
  | [] => (min 2 embeddings.length, 0)
  | v :: rest =>
    (v :: rest).foldl
      (fun best k => if best.2 < sil embeddings k then (k, sil embeddings k) else best)
      (v, -1)

/-- clustering.py lines 43-80, `cluster_from_embeddings`: guard the minimum
submission count, select the optimal k, re-cluster at that k with the same
fixed seed (the `fitPredict` oracle), and group the submissions by assigned
label, preserving input order within each group.  `zip` truncates to the
shorter list as Python's does; a label outside `range k` would raise
`IndexError` in `clusters[label].append`, modelled by the `.error`
branch. -/
def cluster_from_embeddings (fitPredict : List (List ℚ) → Nat → List Nat)
    (sil : List (List ℚ) → Nat → ℚ) (embeddings : List (List ℚ))
    (submissions : List String) :
    Except String (List (List String) × Nat × ℚ) :=
  if submissions.length < MIN_SUBMISSIONS_FOR_CLUSTERING then
    .error "Need at least 2 submissions"
  else
    match select_optimal_k sil embeddings K_RANGE with
    | (optimal_k, silhouette) =>
      if (submissions.zip (fitPredict embeddings optimal_k)).all
           (fun p => decide (p.2 < optimal_k)) then
        .ok ((List.range optimal_k).map
               (fun i => ((submissions.zip (fitPredict embeddings optimal_k)).filter
                            (fun p => decide (p.2 = i))).map Prod.fst),
             optimal_k, silhouette)
      else .error "IndexError"

/-- clustering.py lines 122-151, `cluster_submissions`: bounds checks, then
`cluster_from_embeddings`.  The embeddings are passed explicitly; when the
caller passes `None` the source first computes them with the external
embedding model, so an explicit argument covers both branches given the
encoder oracle's output. -/
def cluster_submissions (fitPredict : List (List ℚ) → Nat → List Nat)
    (sil : List (List ℚ) → Nat → ℚ) (embeddings : List (List ℚ))
    (submissions : List String) :
    Except String (List (List String) × Nat × ℚ) :=
  if submissions.length < MIN_SUBMISSIONS_FOR_CLUSTERING then
    .error "Need at least 2 submissions"
  else if MAX_SUBMISSIONS < submissions.length then
    .error "Maximum 1000 submissions"
  else cluster_from_embeddings fitPredict sil embeddings submissions

/-! The debate orchestrator, `backend/app/services/debate.py`. -/

/-- An intervention record, as `check_for_intervention` returns it and
`add_intervention` stores it: type, reason and moderator message. -/
structure Interv where
  itype : String
  reason : String
  message : String
deriving DecidableEq, Repr

/-- debate.py lines 221-226: the `max_rounds` intervention value. -/
def maxRoundsInterv (max_rounds : Nat) : Interv :=
  ⟨"max_rounds",
   "Maximum rounds (" ++ toString max_rounds ++ ") reached",
   "The debate has reached the maximum number of rounds. Let's summarize the key points discussed."⟩

/-- debate.py lines 229-234: the `max_messages` intervention value. -/
def maxMessagesInterv (max_messages : Nat) : Interv :=
  ⟨"max_messages",
   "Maximum messages (" ++ toString max_messages ++ ") reached",
   "The debate has reached the maximum number of messages. Let's wrap up with a summary."⟩

/-- debate.py line 240: `messages[-5:] if len(messages) >= 5 else messages`. -/
def recentMessages (messages : List Msg) : List Msg :=
  if 5 ≤ messages.length then messages.drop (messages.length - 5) else messages

/-- debate.py lines 239-265: the repetition check over the last five (or
all, when fewer) messages. -/
def checkRepetition (encode : List String → List (List ℚ))
    (messages : List Msg) : Option Interv :=
  if MIN_MESSAGES_FOR_INTERVENTION ≤ (recentMessages messages).length then
    if REPETITION_SIMILARITY_THRESHOLD <
        listMean (pairSims (encode ((recentMessages messages).map (fun m => m.content)))) then
      some ⟨"repetition", "Similar points are being repeated",
            "I notice similar points are being repeated. Let's move forward and explore new aspects of the topic or address different perspectives."⟩
    else none
  else none

/-- debate.py lines 269-280: the two embeddings the off-topic check
compares — the concatenated earliest three messages and the concatenated
latest three messages. -/
def offTopicEmbs (encode : List String → List (List ℚ))
    (messages : List Msg) : List (List ℚ) :=
  encode [String.intercalate " " ((messages.take 3).map (fun m => m.content)),
          String.intercalate " " ((messages.drop (messages.length - 3)).map
            (fun m => m.content))]

/-- debate.py lines 267-288: the off-topic check, comparing the first three
messages' concatenation against the last three messages' concatenation. -/
def checkOffTopic (encode : List String → List (List ℚ))
    (messages : List Msg) : Option Interv :=
  if 6 ≤ messages.length then
    if dot ((offTopicEmbs encode messages).getD 0 [])
          ((offTopicEmbs encode messages).getD 1 []) <
        INTERVENTION_OFF_TOPIC_THRESHOLD then
      some ⟨"off_topic", "Discussion has drifted off-topic",
            "The discussion seems to have drifted from the original topic. Let's refocus on the core issues at hand."⟩
    else none
  else none

/-- debate.py line 295: the first round of the trailing stalemate window,
`max(1, round_number - rounds_to_check + 1)` with
`rounds_to_check = min(round_number, MIN_ROUNDS_FOR_STALEMATE_CHECK)`. -/
def stalemateLower (round_number : Nat) : Nat :=
  max 1 (round_number - min round_number MIN_ROUNDS_FOR_STALEMATE_CHECK + 1)

/-- debate.py lines 294-300: per round of the trailing window, the
space-joined contents of that round's messages, skipping empty rounds. -/
def roundsChecked (messages : List Msg) (round_number : Nat) : List String :=
  (List.range (round_number + 1 - stalemateLower round_number)).filterMap (fun i =>
    if (messages.filter
          (fun m => m.round_number == stalemateLower round_number + i)).isEmpty then none
    else some (String.intercalate " "
      ((messages.filter
          (fun m => m.round_number == stalemateLower round_number + i)).map
        (fun m => m.content))))

/-- debate.py lines 290-321: the stalemate check over the trailing window of
rounds. -/
def checkStalemate (encode : List String → List (List ℚ))
    (messages : List Msg) (round_number : Nat) : Option Interv :=
  if INTERVENTION_STALEMATE_THRESHOLD ≤ round_number then
    if MIN_MESSAGES_FOR_INTERVENTION ≤ (roundsChecked messages round_number).length then
      if STALEMATE_SIMILARITY_THRESHOLD <
          listMean (pairSims (encode (roundsChecked messages round_number))) then
        some ⟨"stalemate", "Debate appears stalled with repeated arguments",
              "It seems we're circling the same arguments. Let's try to synthesize the key points and identify areas of potential agreement or new angles to explore."⟩
      else none
    else none
  else none

/-- debate.py line 325: the fixed insult denylist. -/
def insult_keywords : List String :=
  ["stupid", "idiot", "fool", "moron", "ridiculous", "nonsense"]

/-- debate.py lines 323-333: the ethical check on the last message. -/
def checkEthical (messages : List Msg) : Option Interv :=
  if DETECT_ETHICAL_VIOLATIONS then
    if insult_keywords.any (fun w =>
        pyIn w (pyLower ((messages.getLast?.map (fun m => m.content)).getD ""))) then
      some ⟨"ethical", "Detected inappropriate language",
            "Let's maintain a respectful tone. Please express disagreements constructively without personal attacks or inappropriate language."⟩
    else none
  else none

/-- debate.py lines 195-335, `check_for_intervention`: ceilings first
(rounds before messages), then the minimum-message gate, then repetition,
off-topic, stalemate and ethical checks in priority order, first match
wins. -/
def check_for_intervention (encode : List String → List (List ℚ))
    (messages : List Msg) (round_number max_rounds max_messages : Nat) :
    Option Interv :=
  if max_rounds ≤ round_number then some (maxRoundsInterv max_rounds)
  else if max_messages ≤ messages.length then some (maxMessagesInterv max_messages)
  else if messages.length < MIN_MESSAGES_FOR_INTERVENTION then none
  else
    match checkRepetition encode messages with
    | some iv => some iv
    | none =>
      match checkOffTopic encode messages with
      | some iv => some iv
      | none =>
        match checkStalemate encode messages round_number with
        | some iv => some iv
        | none => checkEthical messages

/-- The mutable state of the turn loop of `run_debate` (debate.py lines
454-458 and the stored transcript): current round number, `message_count`,
`current_agent_idx`, the number of generation calls made so far (the index
into the `gen` oracle), the stored messages and the stored interventions. -/
structure LoopState where
  round : Nat
  msgCount : Nat
  agentIdx : Nat
  calls : Nat
  messages : List Msg
  interventions : List Interv
deriving DecidableEq, Repr

deriving instance DecidableEq for Except

/-- debate.py lines 550-555: round-robin advance of the speaker index; a new
round begins when the index wraps to 0. -/
def advanceSpeaker (numAgents : Nat) (st : LoopState) : LoopState :=
  let idx := (st.agentIdx + 1) % numAgents
  { st with agentIdx := idx,
            round := if idx = 0 then st.round + 1 else st.round }

/-- Python truthiness of `response.choices[0].message.content`: `None` and
the empty string are falsy (debate.py line 497, `if not agent_message`). -/
def falsyContent : Option String → Bool
  | none => true
  | some s => s == ""

/-- The stored agent message of one turn (debate.py lines 506-513). -/
def agentTurnMsg (agents : List String) (st : LoopState) (text : String) : Msg :=
  ⟨"agent_" ++ toString st.agentIdx, agents.getD st.agentIdx "", text,
   st.round, "agent_message"⟩

/-- debate.py lines 474-555: the turn loop of `run_debate`.  Each iteration:
guard `round_number <= max_rounds and message_count < max_messages`; call
the generation capability (an exception propagates as `.error`); skip a
falsy result, advancing the speaker; otherwise store the agent message,
run `check_for_intervention` on the stored transcript, store a triggered
intervention with its moderator message, break on the `max_rounds` or
`max_messages` types, and advance the speaker.  `fuel` bounds the number of
iterations the model unrolls; `none` means the bound was reached (the
Python loop has no such bound). -/
def debateLoop (gen : Nat → Except String (Option String))
    (encode : List String → List (List ℚ)) (agents : List String)
    (max_rounds max_messages : Nat) :
    Nat → LoopState → Option (Except String LoopState)
  | 0, _ => none
  | fuel + 1, st =>
    if st.round ≤ max_rounds ∧ st.msgCount < max_messages then
      match gen st.calls with
      | .error e => some (.error e)
      | .ok content =>
        if falsyContent content then
          debateLoop gen encode agents max_rounds max_messages fuel
            (advanceSpeaker agents.length { st with calls := st.calls + 1 })
        else
          match check_for_intervention encode
              (st.messages ++ [agentTurnMsg agents st (content.getD "")])
              st.round max_rounds max_messages with
          | none =>
            debateLoop gen encode agents max_rounds max_messages fuel
              (advanceSpeaker agents.length
                { st with
                  calls := st.calls + 1
                  messages := st.messages ++ [agentTurnMsg agents st (content.getD "")]
                  msgCount := st.msgCount + 1 })
          | some iv =>
            if iv.itype = "max_rounds" ∨ iv.itype = "max_messages" then
              some (.ok
                { st with
                  calls := st.calls + 1
                  messages := (st.messages ++ [agentTurnMsg agents st (content.getD "")])
                    ++ [⟨"orchestrator", "Moderator", iv.message, st.round,
                         "orchestrator_message"⟩]
                  msgCount := st.msgCount + 2
                  interventions := st.interventions ++ [iv] })
            else
              debateLoop gen encode agents max_rounds max_messages fuel
                (advanceSpeaker agents.length
                  { st with
                    calls := st.calls + 1
                    messages := (st.messages ++ [agentTurnMsg agents st (content.getD "")])
                      ++ [⟨"orchestrator", "Moderator", iv.message, st.round,
                           "orchestrator_message"⟩]
                    msgCount := st.msgCount + 2
                    interventions := st.interventions ++ [iv] })
    else some (.ok st)

/-- debate.py lines 460-469: the moderator's opening message. -/
def openingMsg (agents : List String) : Msg :=
  ⟨"orchestrator", "Moderator",
   "Welcome to the debate. We have " ++ toString agents.length
     ++ " perspectives to explore. Let's begin with " ++ agents.getD 0 "" ++ ".",
   1, "orchestrator_message"⟩

/-- debate.py line 558: the moderator's closing summary message text. -/
def finalMsgText (round_number message_count : Nat) : String :=
  "The debate has concluded after " ++ toString round_number
    ++ " rounds with " ++ toString message_count
    ++ " messages. Thank you all for your contributions."

/-- One recorded `update_debate_status` call (debate_storage.py): the
source calls it with `"running"`, with `"completed"` plus the consensus
score, or with `"cancelled"` plus an error message. -/
inductive StatusUpdate where
  | running : StatusUpdate
  | completed : ℚ → StatusUpdate
  | cancelled : String → StatusUpdate
deriving DecidableEq, Repr

/-- What one execution of `run_debate` leaves behind: the sequence of
status updates it issued, the stored messages and the stored interventions
(the latter two only on the successful path; on the exception path the
partially stored transcript is not tracked by this model). -/
structure RunOutcome where
  trace : List StatusUpdate
  messages : List Msg
  interventions : List Interv
deriving DecidableEq, Repr

/-- debate.py lines 364-603: the body of `run_debate`'s `try` block, from
after the `running` status update to the value of the `completed` path.
`setup` abstracts lines 368-411 (cluster retrieval and agent creation, any
`ValueError` raised there included); the explicit emptiness re-check of
lines 406-409 is kept.  On success the closing message is appended, the
consensus score computed over the stored transcript, and summarization
(`summarize` oracle) runs before the result is returned.  `none` means the
loop-unrolling fuel ran out. -/
def run_debate_body (setup : Except String (List String))
    (gen : Nat → Except String (Option String))
    (encode : List String → List (List ℚ)) (polarity : String → ℚ)
    (summarize : Except String Unit) (max_rounds max_messages fuel : Nat) :
    Option (Except String (ℚ × List Msg × List Interv)) :=
  match setup with
  | .error e => some (.error e)
  | .ok agents =>
    if agents.isEmpty then some (.error "No agents created")
    else
      let st0 : LoopState := ⟨1, 1, 0, 0, [openingMsg agents], []⟩
      match debateLoop gen encode agents max_rounds max_messages fuel st0 with
      | none => none
      | some (.error e) => some (.error e)
      | some (.ok st) =>
        let messages := st.messages ++
          [⟨"orchestrator", "Moderator", finalMsgText st.round st.msgCount,
            st.round, "orchestrator_message"⟩]
        let cd := calculate_consensus_score encode polarity messages
        match summarize with
        | .error e => some (.error e)
        | .ok _ => some (.ok (cd.consensus_score, messages, st.interventions))

/-- debate.py lines 338-617, `run_debate`: set the status to `running`,
run the body, and either complete with the consensus score or catch the
exception and cancel with `"Debate execution failed: " + str(e)` (lines
605-617).  The returned trace records the `update_debate_status` calls in
order. -/
def run_debate (setup : Except String (List String))
    (gen : Nat → Except String (Option String))
    (encode : List String → List (List ℚ)) (polarity : String → ℚ)
    (summarize : Except String Unit) (max_rounds max_messages fuel : Nat) :
    Option RunOutcome :=
  match run_debate_body setup gen encode polarity summarize
          max_rounds max_messages fuel with
  | none => none
  | some (.ok r) => some ⟨[.running, .completed r.1], r.2.1, r.2.2⟩
  | some (.error e) =>
    some ⟨[.running, .cancelled ("Debate execution failed: " ++ e)], [], []⟩

/-! Helper lemmas. -/

/-- Over keyword-free messages both hit counters stay at zero. -/
theorem agreementCounts_eq_zero (messages : List Msg)
    (h1 : ∀ m ∈ messages, ∀ w ∈ agreement_keywords, pyIn w (pyLower m.content) = false)
    (h2 : ∀ m ∈ messages, ∀ w ∈ disagreement_keywords, pyIn w (pyLower m.content) = false) :
    agreementCounts messages = (0, 0) := by
  unfold agreementCounts
  rw [Prod.mk.injEq]
  constructor
  · rw [List.countP_eq_zero]
    intro m hm
    simp only [Bool.not_eq_true, List.any_eq_false]
    intro w hw
    simp [h1 m hm w hw]
  · rw [List.countP_eq_zero]
    intro m hm
    simp only [Bool.not_eq_true, List.any_eq_false]
    intro w hw
    simp [h2 m hm w hw]

/-- A transcript in which no message contains a contention marker raises no
argument: the `raised` component of `resolutionScan` is empty. -/
theorem resolutionScan_raised_empty (messages : List Msg)
    (h : ∀ m ∈ messages, ∀ w ∈ contention_markers, pyIn w (pyLower m.content) = false) :
    ∀ prev, (resolutionScan messages prev).2 = ∅ := by
  induction messages with
  | nil => intro prev; rfl
  | cons m rest ih =>
    intro prev
    have hm : contention_markers.any (fun w => pyIn w (pyLower m.content)) = false := by
      rw [List.any_eq_false]
      intro w hw
      simp [h m (List.mem_cons_self m rest) w hw]
    have hrest := ih (fun m hm2 => h m (List.mem_cons_of_mem _ hm2)) (some m.agent_id)
    simp [resolutionScan, hm, hrest]

/-- Rounding to the nearest integer is monotone. -/
theorem roundQ_mono {q r : ℚ} (h : q ≤ r) : round q ≤ round r := by
  rw [round_eq, round_eq]
  exact Int.floor_le_floor (by linarith)

/-- On a tie, ordinary rounding goes up to the floor plus one. -/
theorem roundQ_of_half {q : ℚ} (hq : 2 * q = 2 * (⌊q⌋ : ℚ) + 1) :
    round q = ⌊q⌋ + 1 := by
  have hq2 : q + 1 / 2 = ((⌊q⌋ + 1 : ℤ) : ℚ) := by push_cast; linarith
  rw [round_eq, hq2, Int.floor_intCast]

/-- Banker's rounding never exceeds ordinary rounding. -/
theorem roundHalfEven_le_round (q : ℚ) : roundHalfEven q ≤ round q := by
  unfold roundHalfEven
  split
  · rename_i hq
    rw [roundQ_of_half hq]
    split <;> omega
  · exact le_refl _

/-- Banker's rounding is ordinary rounding except on an even-floor tie,
where it is the floor. -/
theorem roundHalfEven_cases (r : ℚ) :
    roundHalfEven r = round r ∨ (r = (⌊r⌋ : ℚ) + 1 / 2 ∧ roundHalfEven r = ⌊r⌋) := by
  unfold roundHalfEven
  split
  · rename_i hq
    have hq2 : r = (⌊r⌋ : ℚ) + 1 / 2 := by linarith
    split
    · exact Or.inr ⟨hq2, rfl⟩
    · exact Or.inl (roundQ_of_half hq).symm
  · exact Or.inl rfl

/-- Banker's rounding is monotone. -/
theorem roundHalfEven_mono {q r : ℚ} (h : q ≤ r) :
    roundHalfEven q ≤ roundHalfEven r := by
  rcases eq_or_lt_of_le h with rfl | hlt
  · exact le_refl _
  · rcases roundHalfEven_cases r with hr | ⟨hhalf, hval⟩
    · calc roundHalfEven q ≤ round q := roundHalfEven_le_round q
        _ ≤ round r := roundQ_mono h
        _ = roundHalfEven r := hr.symm
    · rw [hval]
      have hfloor : round q ≤ ⌊r⌋ := by
        rw [round_eq]
        have hlt2 : q + 1 / 2 < ((⌊r⌋ + 1 : ℤ) : ℚ) := by
          push_cast
          rw [hhalf] at hlt
          linarith
        have := Int.floor_lt.mpr hlt2
        omega
      exact le_trans (roundHalfEven_le_round q) hfloor

/-- Rounding to two decimals is monotone. -/
theorem round2_mono {q r : ℚ} (h : q ≤ r) : round2 q ≤ round2 r := by
  unfold round2
  have h100 : q * 100 ≤ r * 100 := by linarith
  have hz := roundHalfEven_mono h100
  have hc : ((roundHalfEven (q * 100) : ℚ)) ≤ ((roundHalfEven (r * 100) : ℚ)) := by
    exact_mod_cast hz
  linarith

/-! Claim theorems. -/

/-- C10: on an empty transcript `calculate_consensus_score` returns all five
numeric metrics equal to 0.0 and sentiment `"neutral"` — in particular the
reported agreement ratio and resolution rate are 0.0 at this top level, not
the per-metric neutral default 0.5 that `calculate_agreement_ratio` itself
would return. -/
theorem C10_empty_transcript (encode : List String → List (List ℚ))
    (polarity : String → ℚ) :
    calculate_consensus_score encode polarity [] = ⟨0, 0, 0, 0, 0, "neutral"⟩ ∧
      calculate_agreement_ratio ([] : List Msg) = 0.5 :=
  ⟨rfl, by decide⟩

/-- C9: for every message list in which no message contains any configured
agreement or disagreement keyword, `calculate_agreement_ratio` returns
exactly 0.5, whatever the number of messages. -/
theorem C9_agreement_neutral (messages : List Msg)
    (h1 : ∀ m ∈ messages, ∀ w ∈ agreement_keywords, pyIn w (pyLower m.content) = false)
    (h2 : ∀ m ∈ messages, ∀ w ∈ disagreement_keywords, pyIn w (pyLower m.content) = false) :
    calculate_agreement_ratio messages = 0.5 := by
  have hc : agreementCounts messages = (0, 0) :=
    agreementCounts_eq_zero messages h1 h2
  rw [calculate_agreement_ratio, hc]
  norm_num

/-- C9 witness: a concrete keyword-free two-message transcript. -/
theorem C9_agreement_neutral_witness :
    calculate_agreement_ratio
      [⟨"agent_0", "A", "hello there", 1, "agent_message"⟩,
       ⟨"agent_1", "B", "good point", 1, "agent_message"⟩] = 0.5 :=
  C9_agreement_neutral _ (by decide) (by decide)

/-- C2 counterexample: a single message free of every contention marker, on
which `calculate_resolution_rate` returns 0.0, not the claimed 1.0 — the
source returns 0.0 for every transcript of fewer than 2 messages. -/
theorem C2_counterexample :
    (∀ m ∈ [(⟨"agent_0", "A", "hello there", 1, "agent_message"⟩ : Msg)],
       ∀ w ∈ contention_markers, pyIn w (pyLower m.content) = false) ∧
    calculate_resolution_rate
      [⟨"agent_0", "A", "hello there", 1, "agent_message"⟩] = 0 ∧
    calculate_resolution_rate
      [⟨"agent_0", "A", "hello there", 1, "agent_message"⟩] ≠ 1 := by
  decide

/-- C2 (amended): on a transcript free of contention markers,
`calculate_resolution_rate` returns exactly 1.0 when the transcript has at
least 2 messages; transcripts of 0 or 1 messages return 0.0 regardless of
content. -/
theorem C2_amended (messages : List Msg)
    (h : ∀ m ∈ messages, ∀ w ∈ contention_markers, pyIn w (pyLower m.content) = false) :
    calculate_resolution_rate messages = if messages.length < 2 then 0 else 1 := by
  rw [calculate_resolution_rate]
  by_cases hl : messages.length < 2
  · rw [if_pos hl, if_pos hl]
  · rw [if_neg hl, if_neg hl]
    have hr := resolutionScan_raised_empty messages h none
    simp [hr]

/-- C2 witness: a concrete marker-free two-message transcript resolves to
exactly 1. -/
theorem C2_amended_witness :
    calculate_resolution_rate
      [⟨"agent_0", "A", "hello there", 1, "agent_message"⟩,
       ⟨"agent_1", "B", "good point", 1, "agent_message"⟩] = 1 := by
  have h := C2_amended
    [⟨"agent_0", "A", "hello there", 1, "agent_message"⟩,
     ⟨"agent_1", "B", "good point", 1, "agent_message"⟩] (by decide)
  simpa using h

/-- C4: the concrete four-message transcript on which
`calculate_resolution_rate` returns 2.0 — outside the documented interval
`[0, 1]`: the first message raises an argument (`"but"`), the third and
fourth contain resolution indicators and so mark the two distinct authors
of the preceding messages as addressed, giving 2 addressed over 1 raising
author. -/
theorem C4_resolution_rate_exceeds_one :
    calculate_resolution_rate
      [⟨"agent_a", "A", "but no", 1, "agent_message"⟩,
       ⟨"agent_b", "B", "we proceed", 1, "agent_message"⟩,
       ⟨"agent_c", "C", "i understand", 1, "agent_message"⟩,
       ⟨"agent_d", "D", "i acknowledge", 2, "agent_message"⟩] = 2 ∧
    ¬ calculate_resolution_rate
      [⟨"agent_a", "A", "but no", 1, "agent_message"⟩,
       ⟨"agent_b", "B", "we proceed", 1, "agent_message"⟩,
       ⟨"agent_c", "C", "i understand", 1, "agent_message"⟩,
       ⟨"agent_d", "D", "i acknowledge", 2, "agent_message"⟩] ≤ 1 := by
  decide

/-- C8: holding agreement ratio, convergence and resolution rate fixed, the
composite consensus score of `calculate_consensus_score` is monotonically
increasing in semantic alignment under the configured positive weights: the
pre-rounding composite strictly, the rounded reported score weakly (the
two-decimal rounding collapses differences below half a hundredth). -/
theorem C8_composite_monotone (ar conv res sa1 sa2 : ℚ) (h : sa1 ≤ sa2) :
    consensus_composite sa1 ar conv res ≤ consensus_composite sa2 ar conv res ∧
    round2 (consensus_composite sa1 ar conv res) ≤
      round2 (consensus_composite sa2 ar conv res) ∧
    (sa1 < sa2 →
      consensus_composite sa1 ar conv res < consensus_composite sa2 ar conv res) := by
  have hle : consensus_composite sa1 ar conv res ≤ consensus_composite sa2 ar conv res := by
    unfold consensus_composite CONSENSUS_SEMANTIC_WEIGHT
    have : (0.70 : ℚ) = 7 / 10 := by norm_num
    rw [this]
    linarith
  refine ⟨hle, round2_mono hle, fun hlt => ?_⟩
  unfold consensus_composite CONSENSUS_SEMANTIC_WEIGHT
  have : (0.70 : ℚ) = 7 / 10 := by norm_num
  rw [this]
  linarith

/-- C8 witness: the composite at alignment 0 against alignment 1. -/
theorem C8_composite_monotone_witness :
    consensus_composite 0 0 0 0 ≤ consensus_composite 1 0 0 0 ∧
    round2 (consensus_composite 0 0 0 0) ≤ round2 (consensus_composite 1 0 0 0) ∧
    ((0 : ℚ) < 1 → consensus_composite 0 0 0 0 < consensus_composite 1 0 0 0) :=
  C8_composite_monotone 0 0 0 0 1 (by norm_num)

/-- C7: with the k-means and silhouette capabilities fixed deterministic
functions of their inputs (which the fixed `RANDOM_STATE` seed and fixed
`n_init` make them), `cluster_submissions` is deterministic: identical
embeddings and identical texts give identical clusters, identical chosen k
and identical quality, and `select_optimal_k` picks the same k. -/
theorem C7_deterministic (fitPredict : List (List ℚ) → Nat → List Nat)
    (sil : List (List ℚ) → Nat → ℚ) (e1 e2 : List (List ℚ))
    (s1 s2 : List String) (he : e1 = e2) (hs : s1 = s2) :
    cluster_submissions fitPredict sil e1 s1 =
      cluster_submissions fitPredict sil e2 s2 ∧
    select_optimal_k sil e1 K_RANGE = select_optimal_k sil e2 K_RANGE := by
  subst he
  subst hs
  exact ⟨rfl, rfl⟩

/-- C7 witness: two runs on equal concrete inputs. -/
theorem C7_deterministic_witness :
    cluster_submissions (fun _ k => if k = 2 then [0, 1] else [])
        (fun _ _ => 0) [[1], [0]] ["a", "b"] =
      cluster_submissions (fun _ k => if k = 2 then [0, 1] else [])
        (fun _ _ => 0) [[1], [0]] ["a", "b"] ∧
    select_optimal_k (fun _ _ => 0) [[1], [0]] K_RANGE =
      select_optimal_k (fun _ _ => 0) [[1], [0]] K_RANGE :=
  C7_deterministic _ _ _ _ _ _ rfl rfl

/-- Prepending an element to the bucket at one index of a nodup index list
permutes the flattened buckets by one new element in front. -/
theorem flatten_update_perm {α : Type} (a : α) (l : Nat) (g : Nat → List α) :
    ∀ idxs : List Nat, idxs.Nodup → l ∈ idxs →
      ((idxs.map (fun i => if l = i then a :: g i else g i)).flatten).Perm
        (a :: (idxs.map g).flatten) := by
  intro idxs
  induction idxs with
  | nil => intro _ h; cases h
  | cons j rest ih =>
    intro hnd hmem
    rcases List.mem_cons.mp hmem with rfl | hl
    · have hnotin : l ∉ rest := (List.nodup_cons.mp hnd).1
      have hmap : rest.map (fun i => if l = i then a :: g i else g i) = rest.map g := by
        apply List.map_congr_left
        intro i hi
        have hne : l ≠ i := fun h => hnotin (h ▸ hi)
        simp [hne]
      simp only [List.map_cons, List.flatten_cons, hmap, eq_self_iff_true, if_true,
        List.cons_append]
      exact List.Perm.refl _
    · have hnotin : j ∉ rest := (List.nodup_cons.mp hnd).1
      have hne : l ≠ j := fun h => hnotin (h ▸ hl)
      have ihr := ih (List.nodup_cons.mp hnd).2 hl
      simp only [List.map_cons, List.flatten_cons, if_neg hne]
      exact List.Perm.trans (ihr.append_left (g j)) List.perm_middle

/-- Grouping labelled pairs into the buckets `0 .. k-1` and flattening is a
permutation of the original first components, provided every label is below
`k` — the partition guarantee of the final grouping pass of
`cluster_from_embeddings`. -/
theorem flatten_buckets_perm {α : Type} (k : Nat) :
    ∀ pairs : List (α × Nat), (∀ p ∈ pairs, p.2 < k) →
      ((List.range k).map
         (fun i => (pairs.filter (fun p => decide (p.2 = i))).map Prod.fst)).flatten.Perm
        (pairs.map Prod.fst) := by
  intro pairs
  induction pairs with
  | nil =>
    intro _
    simp
  | cons hd rest ih =>
    intro hbound
    obtain ⟨a, l⟩ := hd
    have hl : l < k := hbound (a, l) (List.mem_cons_self _ _)
    have hrest := ih (fun p hp => hbound p (List.mem_cons_of_mem _ hp))
    have hmapeq : (List.range k).map
          (fun i => (((a, l) :: rest).filter (fun p => decide (p.2 = i))).map Prod.fst) =
        (List.range k).map
          (fun i => if l = i then a :: (rest.filter (fun p => decide (p.2 = i))).map Prod.fst
            else (rest.filter (fun p => decide (p.2 = i))).map Prod.fst) := by
      apply List.map_congr_left
      intro i _
      by_cases h : l = i
      · simp [List.filter_cons, h]
      · simp [List.filter_cons, h]
    rw [hmapeq, List.map_cons]
    exact List.Perm.trans
      (flatten_update_perm a l _ (List.range k) (List.nodup_range k)
        (List.mem_range.mpr hl))
      (hrest.cons a)

/-- Under the oracle contracts (one label per embedding, labels below k),
clustering with `optimal_k = 2` returns the bucket grouping. -/
theorem cluster_from_embeddings_at_two (fitPredict : List (List ℚ) → Nat → List Nat)
    (sil : List (List ℚ) → Nat → ℚ) (embeddings : List (List ℚ))
    (submissions : List String) (q : ℚ)
    (hnle : ¬ submissions.length < MIN_SUBMISSIONS_FOR_CLUSTERING)
    (hsel : select_optimal_k sil embeddings K_RANGE = (2, q))
    (hbound : ∀ l ∈ fitPredict embeddings 2, l < 2) :
    cluster_from_embeddings fitPredict sil embeddings submissions =
      .ok ((List.range 2).map
             (fun i => ((submissions.zip (fitPredict embeddings 2)).filter
                          (fun p => decide (p.2 = i))).map Prod.fst),
           2, q) := by
  unfold cluster_from_embeddings
  rw [if_neg hnle, hsel]
  dsimp only
  have hall : (submissions.zip (fitPredict embeddings 2)).all
      (fun p => decide (p.2 < 2)) = true := by
    rw [List.all_eq_true]
    intro p hp
    have hmem := (List.of_mem_zip hp).2
    simpa using hbound p.2 hmem
  rw [if_pos hall]

/-- C1 counterexample: two submissions (`n = 2`, within the claimed range
`2 ≤ n < range_max = 4`) hit the degenerate fallback of `select_optimal_k`
(no candidate `k < 2` exists), which returns `k = min 2 n = 2`, so
`cluster_from_embeddings` returns 2 groups — not `k ≤ n − 1 = 1` as the
claim states.  The label oracle used satisfies the sklearn contract (two
labels, both below k). -/
theorem C1_counterexample :
    cluster_from_embeddings (fun _ k => if k = 2 then [0, 1] else [])
        (fun _ _ => 0) [[1], [0]] ["a", "b"] = .ok ([["a"], ["b"]], 2, 0) ∧
    ¬ (2 : Nat) ≤ (["a", "b"] : List String).length - 1 := by
  constructor
  · rfl
  · decide

/-- C1 (amended): for `2 ≤ n < 4` (`range_max = 4`, the largest configured
candidate), under the library contracts that silhouette scores lie in
`[-1, 1]` and that `fit_predict` returns one label per embedding with
every label below k, `cluster_from_embeddings` succeeds with: group count
equal to the chosen k; every input text in exactly one output group
(the flattened groups are a permutation of the input); quality in
`[-1, 1]`; `k ≤ n − 1` for `n = 3`; and for `n = 2` the degenerate
fallback `k = 2 = n` with quality exactly 0. -/
theorem C1_amended (fitPredict : List (List ℚ) → Nat → List Nat)
    (sil : List (List ℚ) → Nat → ℚ) (embeddings : List (List ℚ))
    (submissions : List String)
    (hlen : embeddings.length = submissions.length)
    (h2 : 2 ≤ submissions.length) (hmax : submissions.length < 4)
    (hsil : ∀ k ∈ K_RANGE, -1 ≤ sil embeddings k ∧ sil embeddings k ≤ 1)
    (hfp : ∀ k ∈ (min 2 embeddings.length) :: K_RANGE,
       (fitPredict embeddings k).length = embeddings.length ∧
         ∀ l ∈ fitPredict embeddings k, l < k) :
    ∃ cs k q,
      cluster_from_embeddings fitPredict sil embeddings submissions = .ok (cs, k, q) ∧
      cs.length = k ∧
      cs.flatten.Perm submissions ∧
      -1 ≤ q ∧ q ≤ 1 ∧
      (submissions.length = 2 → k = 2 ∧ q = 0) ∧
      (submissions.length = 3 → k ≤ submissions.length - 1) := by
  have hnle : ¬ submissions.length < MIN_SUBMISSIONS_FOR_CLUSTERING := by
    unfold MIN_SUBMISSIONS_FOR_CLUSTERING
    omega
  have hfp2 := hfp 2 (by
    apply List.mem_cons_of_mem
    unfold K_RANGE
    simp)
  have hsil2 := hsil 2 (by unfold K_RANGE; simp)
  have hperm : ∀ q : ℚ, select_optimal_k sil embeddings K_RANGE = (2, q) →
      cluster_from_embeddings fitPredict sil embeddings submissions =
        .ok ((List.range 2).map
               (fun i => ((submissions.zip (fitPredict embeddings 2)).filter
                            (fun p => decide (p.2 = i))).map Prod.fst),
             2, q) :=
    fun q hq => cluster_from_embeddings_at_two fitPredict sil embeddings submissions q
      hnle hq hfp2.2
  have hjoin : ((List.range 2).map
        (fun i => ((submissions.zip (fitPredict embeddings 2)).filter
                     (fun p => decide (p.2 = i))).map Prod.fst)).flatten.Perm
      submissions := by
    have hb : ∀ p ∈ submissions.zip (fitPredict embeddings 2), p.2 < 2 := by
      intro p hp
      exact hfp2.2 p.2 (List.of_mem_zip hp).2
    have hfst : (submissions.zip (fitPredict embeddings 2)).map Prod.fst = submissions :=
      List.map_fst_zip _ _ (le_of_eq (by rw [hfp2.1, hlen]))
    have hp := flatten_buckets_perm 2 (submissions.zip (fitPredict embeddings 2)) hb
    rw [hfst] at hp
    exact hp
  have hlen2 : ((List.range 2).map
      (fun i => ((submissions.zip (fitPredict embeddings 2)).filter
                   (fun p => decide (p.2 = i))).map Prod.fst)).length = 2 := by
    simp
  have hn : submissions.length = 2 ∨ submissions.length = 3 := by omega
  rcases hn with hn2 | hn3
  · have hsel : select_optimal_k sil embeddings K_RANGE = (2, 0) := by
      unfold select_optimal_k
      rw [hlen, hn2]
      rfl
    refine ⟨_, 2, 0, hperm 0 hsel, hlen2, hjoin, by norm_num, by norm_num,
      fun _ => ⟨rfl, rfl⟩, fun h3 => by omega⟩
  · have hfil : K_RANGE.filter (fun k => decide (k < embeddings.length)) = [2] := by
      rw [hlen, hn3]
      decide
    by_cases hgt : (-1 : ℚ) < sil embeddings 2
    · have hsel : select_optimal_k sil embeddings K_RANGE = (2, sil embeddings 2) := by
        unfold select_optimal_k
        rw [hfil]
        simp [hgt]
      exact ⟨_, 2, sil embeddings 2, hperm _ hsel, hlen2, hjoin, hsil2.1, hsil2.2,
        fun h2eq => by omega, fun _ => by omega⟩
    · have hsel : select_optimal_k sil embeddings K_RANGE = (2, -1) := by
        unfold select_optimal_k
        rw [hfil]
        simp [hgt]
      exact ⟨_, 2, -1, hperm _ hsel, hlen2, hjoin, by norm_num, by norm_num,
        fun h2eq => by omega, fun _ => by omega⟩

/-- C1 witness: three concrete submissions, a label oracle meeting the
sklearn contract and a constant silhouette oracle. -/
theorem C1_amended_witness :
    ∃ cs k q,
      cluster_from_embeddings (fun _ k => if k = 0 then [] else [0, 1, 0])
          (fun _ _ => 1 / 2) [[1], [2], [3]] ["a", "b", "c"] = .ok (cs, k, q) ∧
      cs.length = k ∧
      cs.flatten.Perm ["a", "b", "c"] ∧
      -1 ≤ q ∧ q ≤ 1 ∧
      ((["a", "b", "c"] : List String).length = 2 → k = 2 ∧ q = 0) ∧
      ((["a", "b", "c"] : List String).length = 3 →
        k ≤ (["a", "b", "c"] : List String).length - 1) :=
  C1_amended (fun _ k => if k = 0 then [] else [0, 1, 0]) (fun _ _ => 1 / 2)
    [[1], [2], [3]] ["a", "b", "c"] rfl (by decide) (by decide) (by decide) (by decide)

/-- The error message recorded with a cancellation is never empty: it
always starts with the fixed prefix of debate.py line 606. -/
theorem debate_failed_message_ne_empty (e : String) :
    "Debate execution failed: " ++ e ≠ "" := by
  intro hc
  have h2 := congrArg String.length hc
  rw [String.length_append] at h2
  have hl : ("Debate execution failed: ").length = 25 := rfl
  have hz : ("" : String).length = 0 := rfl
  rw [hl, hz] at h2
  omega

/-- C5: every completed execution of `run_debate` issues exactly the status
updates `running` then `completed` (with a score) or `running` then
`cancelled` (with a non-empty error message): the status is set to
`running` before anything can fail, no path skips `running`, both second
updates are final, and `cancelled` always carries a non-empty message. -/
theorem C5_status_path (setup : Except String (List String))
    (gen : Nat → Except String (Option String))
    (encode : List String → List (List ℚ)) (polarity : String → ℚ)
    (summarize : Except String Unit) (max_rounds max_messages fuel : Nat)
    (outcome : RunOutcome)
    (h : run_debate setup gen encode polarity summarize max_rounds max_messages fuel
           = some outcome) :
    (∃ q, outcome.trace = [StatusUpdate.running, StatusUpdate.completed q]) ∨
    (∃ e, outcome.trace = [StatusUpdate.running, StatusUpdate.cancelled e] ∧ e ≠ "") := by
  unfold run_debate at h
  cases hb : run_debate_body setup gen encode polarity summarize
      max_rounds max_messages fuel with
  | none => rw [hb] at h; cases h
  | some r =>
    rw [hb] at h
    cases r with
    | ok v =>
      dsimp only at h
      injection h with h2
      subst h2
      exact Or.inl ⟨v.1, rfl⟩
    | error e =>
      dsimp only at h
      injection h with h2
      subst h2
      exact Or.inr ⟨"Debate execution failed: " ++ e, rfl,
        debate_failed_message_ne_empty e⟩

set_option maxRecDepth 8000 in
/-- C5 witness: a concrete one-agent run that completes, through the
`max_rounds` intervention, with consensus score 80. -/
theorem C5_status_path_witness :
    (∃ q, (RunOutcome.trace
        ⟨[StatusUpdate.running, StatusUpdate.completed 80],
         [openingMsg ["Analyst"],
          ⟨"agent_0", "Analyst", "We should proceed.", 1, "agent_message"⟩,
          ⟨"orchestrator", "Moderator", (maxRoundsInterv 1).message, 1,
           "orchestrator_message"⟩,
          ⟨"orchestrator", "Moderator", finalMsgText 1 3, 1, "orchestrator_message"⟩],
         [maxRoundsInterv 1]⟩) =
      [StatusUpdate.running, StatusUpdate.completed q]) ∨
    (∃ e, (RunOutcome.trace
        ⟨[StatusUpdate.running, StatusUpdate.completed 80],
         [openingMsg ["Analyst"],
          ⟨"agent_0", "Analyst", "We should proceed.", 1, "agent_message"⟩,
          ⟨"orchestrator", "Moderator", (maxRoundsInterv 1).message, 1,
           "orchestrator_message"⟩,
          ⟨"orchestrator", "Moderator", finalMsgText 1 3, 1, "orchestrator_message"⟩],
         [maxRoundsInterv 1]⟩) =
      [StatusUpdate.running, StatusUpdate.cancelled e] ∧ e ≠ "") :=
  C5_status_path (.ok ["Analyst"]) (fun _ => .ok (some "We should proceed."))
    (fun ts => ts.map (fun _ => [1])) (fun _ => 0) (.ok ()) 1 30 5 _ (by decide)

set_option maxRecDepth 8000 in
/-- C3 counterexample: a generation call that raises (`.error "boom"`) at
the very first turn is not skipped — `run_debate` ends with the debate
`cancelled`, contradicting the claim that a failed generation call does
not transition the debate to cancelled. -/
theorem C3_counterexample :
    run_debate (.ok ["Analyst"]) (fun _ => .error "boom")
        (fun ts => ts.map (fun _ => [1])) (fun _ => 0) (.ok ()) 3 30 5 =
      some ⟨[StatusUpdate.running,
             StatusUpdate.cancelled "Debate execution failed: boom"], [], []⟩ := by
  decide

/-- C3 (amended): inside the turn loop an *empty* generation result (`None`
or the empty string) is skipped — no message is stored and the loop
continues with the speaker index advanced — while an *exception-raising*
generation call is not locally recovered: it aborts the loop with that
error, which the top level of `run_debate` turns into the `cancelled`
state. -/
theorem C3_amended (gen : Nat → Except String (Option String))
    (encode : List String → List (List ℚ)) (agents : List String)
    (max_rounds max_messages fuel : Nat) (st : LoopState)
    (hguard : st.round ≤ max_rounds ∧ st.msgCount < max_messages) :
    (∀ c, gen st.calls = .ok c → falsyContent c = true →
       debateLoop gen encode agents max_rounds max_messages (fuel + 1) st =
         debateLoop gen encode agents max_rounds max_messages fuel
           (advanceSpeaker agents.length { st with calls := st.calls + 1 })) ∧
    (∀ e, gen st.calls = .error e →
       debateLoop gen encode agents max_rounds max_messages (fuel + 1) st =
         some (.error e)) := by
  constructor
  · intro c hgen hfalsy
    simp only [debateLoop, if_pos hguard, hgen, hfalsy, if_true]
  · intro e hgen
    simp only [debateLoop, if_pos hguard, hgen]

/-- C3 witness: the skip step and the propagated exception at a concrete
loop state. -/
theorem C3_amended_witness :
    (debateLoop (fun _ => .ok none) (fun ts => ts.map (fun _ => [1])) ["A"] 3 30 6
        ⟨1, 1, 0, 0, [], []⟩ =
      debateLoop (fun _ => .ok none) (fun ts => ts.map (fun _ => [1])) ["A"] 3 30 5
        (advanceSpeaker 1 ⟨1, 1, 0, 1, [], []⟩)) ∧
    (debateLoop (fun _ => .error "down") (fun ts => ts.map (fun _ => [1])) ["A"] 3 30 6
        ⟨1, 1, 0, 0, [], []⟩ = some (.error "down")) :=
  ⟨(C3_amended (fun _ => .ok none) (fun ts => ts.map (fun _ => [1])) ["A"] 3 30 5
      ⟨1, 1, 0, 0, [], []⟩ (by decide)).1 none rfl rfl,
   (C3_amended (fun _ => .error "down") (fun ts => ts.map (fun _ => [1])) ["A"] 3 30 5
      ⟨1, 1, 0, 0, [], []⟩ (by decide)).2 "down" rfl⟩

/-- When the round number has reached the ceiling, the intervention check
returns the `max_rounds` intervention, whatever the transcript. -/
theorem check_at_ceiling (encode : List String → List (List ℚ))
    (messages : List Msg) (round_number max_rounds max_messages : Nat)
    (h : max_rounds ≤ round_number) :
    check_for_intervention encode messages round_number max_rounds max_messages =
      some (maxRoundsInterv max_rounds) := by
  unfold check_for_intervention
  rw [if_pos h]

/-- The repetition check only ever returns a `repetition` intervention. -/
theorem checkRepetition_itype {encode : List String → List (List ℚ)}
    {messages : List Msg} {iv : Interv}
    (h : checkRepetition encode messages = some iv) : iv.itype = "repetition" := by
  unfold checkRepetition at h
  split at h
  · split at h
    · cases h; rfl
    · cases h
  · cases h

/-- The off-topic check only ever returns an `off_topic` intervention. -/
theorem checkOffTopic_itype {encode : List String → List (List ℚ)}
    {messages : List Msg} {iv : Interv}
    (h : checkOffTopic encode messages = some iv) : iv.itype = "off_topic" := by
  unfold checkOffTopic at h
  split at h
  · split at h
    · cases h; rfl
    · cases h
  · cases h

/-- The stalemate check only ever returns a `stalemate` intervention. -/
theorem checkStalemate_itype {encode : List String → List (List ℚ)}
    {messages : List Msg} {round_number : Nat} {iv : Interv}
    (h : checkStalemate encode messages round_number = some iv) :
    iv.itype = "stalemate" := by
  unfold checkStalemate at h
  split at h
  · split at h
    · split at h
      · cases h; rfl
      · cases h
    · cases h
  · cases h

/-- The ethical check only ever returns an `ethical` intervention. -/
theorem checkEthical_itype {messages : List Msg} {iv : Interv}
    (h : checkEthical messages = some iv) : iv.itype = "ethical" := by
  unfold checkEthical at h
  split at h
  · split at h
    · cases h; rfl
    · cases h
  · cases h

/-- An intervention of type `max_rounds` can only be the one the first
(ceiling) branch of `check_for_intervention` builds. -/
theorem check_maxrounds_shape {encode : List String → List (List ℚ)}
    {messages : List Msg} {round_number max_rounds max_messages : Nat} {iv : Interv}
    (h : check_for_intervention encode messages round_number max_rounds max_messages
           = some iv)
    (hmr : iv.itype = "max_rounds") : iv = maxRoundsInterv max_rounds := by
  unfold check_for_intervention at h
  split at h
  · cases h; rfl
  · split at h
    · cases h
      have hx : (maxMessagesInterv max_messages).itype = "max_messages" := rfl
      rw [hx] at hmr
      exact absurd hmr (by decide)
    · split at h
      · cases h
      · split at h
        · rename_i heq
          cases h
          rw [checkRepetition_itype heq] at hmr
          exact absurd hmr (by decide)
        · split at h
          · rename_i heq
            cases h
            rw [checkOffTopic_itype heq] at hmr
            exact absurd hmr (by decide)
          · split at h
            · rename_i heq
              cases h
              rw [checkStalemate_itype heq] at hmr
              exact absurd hmr (by decide)
            · rw [checkEthical_itype h] at hmr
              exact absurd hmr (by decide)

/-- Number of stored `max_rounds` interventions. -/
def countMR (ivs : List Interv) : Nat :=
  (ivs.filter (fun iv => iv.itype == "max_rounds")).length

/-- Appending one intervention changes the `max_rounds` count by at most
one, and only when its type is `max_rounds`. -/
theorem countMR_append (l : List Interv) (iv : Interv) :
    countMR (l ++ [iv]) = countMR l + (if iv.itype = "max_rounds" then 1 else 0) := by
  unfold countMR
  rw [List.filter_append, List.length_append]
  congr 1
  by_cases h : iv.itype = "max_rounds"
  · have hb : (iv.itype == "max_rounds") = true := beq_iff_eq.mpr h
    rw [if_pos h]
    simp [List.filter_cons, hb]
  · have hb : (iv.itype == "max_rounds") = false := beq_eq_false_iff_ne.mpr h
    rw [if_neg h]
    simp [List.filter_cons, hb]

/-- The first turn in which a non-empty utterance is generated at a round
that has reached the ceiling stores the agent message, fires `max_rounds`,
stores its moderator message, and ends the loop with no further activity. -/
theorem debateLoop_fires_at_ceiling (gen : Nat → Except String (Option String))
    (encode : List String → List (List ℚ)) (agents : List String)
    (max_rounds max_messages fuel : Nat) (st : LoopState) (c : String)
    (hguard : st.round ≤ max_rounds ∧ st.msgCount < max_messages)
    (hceil : max_rounds ≤ st.round)
    (hgen : gen st.calls = .ok (some c)) (hc : (c == "") = false) :
    debateLoop gen encode agents max_rounds max_messages (fuel + 1) st =
      some (.ok
        { st with
          calls := st.calls + 1
          messages := (st.messages ++ [agentTurnMsg agents st c]) ++
            [⟨"orchestrator", "Moderator", (maxRoundsInterv max_rounds).message,
              st.round, "orchestrator_message"⟩]
          msgCount := st.msgCount + 2
          interventions := st.interventions ++ [maxRoundsInterv max_rounds] }) := by
  simp only [debateLoop, if_pos hguard, hgen]
  simp only [falsyContent, hc, Bool.false_eq_true, if_false]
  rw [check_at_ceiling encode _ _ _ max_messages hceil]
  dsimp only
  split
  · rfl
  · rename_i hcond
    exact absurd (Or.inl rfl) hcond

/-- Every successful loop run starting with no stored `max_rounds`
intervention ends with at most one; when one was stored it is the last
intervention, and the last stored message of the loop is its moderator
message — the loop stores nothing after it. -/
theorem debateLoop_maxrounds_once (gen : Nat → Except String (Option String))
    (encode : List String → List (List ℚ)) (agents : List String)
    (max_rounds max_messages : Nat) :
    ∀ fuel st stf, countMR st.interventions = 0 →
      debateLoop gen encode agents max_rounds max_messages fuel st = some (.ok stf) →
      countMR stf.interventions ≤ 1 ∧
        (countMR stf.interventions = 1 →
          stf.interventions.getLast? = some (maxRoundsInterv max_rounds) ∧
          ∃ r, stf.messages.getLast? =
            some ⟨"orchestrator", "Moderator", (maxRoundsInterv max_rounds).message,
                  r, "orchestrator_message"⟩) := by
  intro fuel
  induction fuel with
  | zero =>
    intro st stf h0 hloop
    cases hloop
  | succ fuel ih =>
    intro st stf h0 hloop
    simp only [debateLoop] at hloop
    split at hloop
    · split at hloop
      · simp at hloop
      · split at hloop
        · refine ih _ _ ?_ hloop
          exact h0
        · split at hloop
          · refine ih _ _ ?_ hloop
            exact h0
          · rename_i content hnotfalsy iv hiv
            split at hloop
            · rename_i hbreak
              injection hloop with hloop2
              injection hloop2 with hloop3
              subst hloop3
              by_cases hmr : iv.itype = "max_rounds"
              · have hiv2 : iv = maxRoundsInterv max_rounds :=
                  check_maxrounds_shape hiv hmr
                subst hiv2
                dsimp only
                have hone : countMR (st.interventions ++ [maxRoundsInterv max_rounds]) = 1 := by
                  rw [countMR_append, h0]
                  simp [maxRoundsInterv]
                rw [hone]
                refine ⟨le_refl 1, fun _ => ⟨List.getLast?_concat _, st.round, ?_⟩⟩
                exact List.getLast?_concat _
              · have hz : countMR (st.interventions ++ [iv]) = 0 := by
                  rw [countMR_append, h0, if_neg hmr]
                dsimp only
                rw [hz]
                exact ⟨by omega, fun h1 => absurd h1 (by omega)⟩
            · rename_i hbreak
              have hmr : iv.itype ≠ "max_rounds" := fun hh => hbreak (Or.inl hh)
              have h0n : countMR (st.interventions ++ [iv]) = 0 := by
                rw [countMR_append, h0, if_neg hmr]
              refine ih _ _ ?_ hloop
              exact h0n
    · injection hloop with hloop2
      injection hloop2 with hloop3
      subst hloop3
      rw [h0]
      exact ⟨by omega, fun h1 => absurd h1 (by omega)⟩

/-- C6 (amended): in the debate turn loop, (1) the first turn that produces
a non-empty utterance at a round number that has reached the configured
ceiling triggers the `max_rounds` intervention immediately — its moderator
message is stored and the loop ends at once — and (2) every loop run that
terminates normally stores at most one `max_rounds` intervention, and when
it stored one, that intervention is the last one stored and its moderator
message is the last message the loop stored.  (The unamended claim fails
when every generation at the ceiling round is empty: the round counter
then passes the ceiling without any intervention, as the counterexample
shows.) -/
theorem C6_amended :
    (∀ (gen : Nat → Except String (Option String))
       (encode : List String → List (List ℚ)) (agents : List String)
       (max_rounds max_messages fuel : Nat) (st : LoopState) (c : String),
       st.round ≤ max_rounds ∧ st.msgCount < max_messages →
       max_rounds ≤ st.round →
       gen st.calls = .ok (some c) → (c == "") = false →
       debateLoop gen encode agents max_rounds max_messages (fuel + 1) st =
         some (.ok
           { st with
             calls := st.calls + 1
             messages := (st.messages ++ [agentTurnMsg agents st c]) ++
               [⟨"orchestrator", "Moderator", (maxRoundsInterv max_rounds).message,
                 st.round, "orchestrator_message"⟩]
             msgCount := st.msgCount + 2
             interventions := st.interventions ++ [maxRoundsInterv max_rounds] })) ∧
    (∀ (gen : Nat → Except String (Option String))
       (encode : List String → List (List ℚ)) (agents : List String)
       (max_rounds max_messages fuel : Nat) (st stf : LoopState),
       countMR st.interventions = 0 →
       debateLoop gen encode agents max_rounds max_messages fuel st = some (.ok stf) →
       countMR stf.interventions ≤ 1 ∧
         (countMR stf.interventions = 1 →
           stf.interventions.getLast? = some (maxRoundsInterv max_rounds) ∧
           ∃ r, stf.messages.getLast? =
             some ⟨"orchestrator", "Moderator", (maxRoundsInterv max_rounds).message,
                   r, "orchestrator_message"⟩)) :=
  ⟨fun gen encode agents max_rounds max_messages fuel st c hguard hceil hgen hc =>
      debateLoop_fires_at_ceiling gen encode agents max_rounds max_messages fuel st c
        hguard hceil hgen hc,
   fun gen encode agents max_rounds max_messages fuel st stf h0 hloop =>
      debateLoop_maxrounds_once gen encode agents max_rounds max_messages fuel st stf
        h0 hloop⟩

set_option maxRecDepth 8000 in
/-- C6 witness: both parts at a concrete one-agent, one-round loop. -/
theorem C6_amended_witness :
    (debateLoop (fun _ => .ok (some "hi")) (fun ts => ts.map (fun _ => [1]))
        ["A"] 1 30 4 ⟨1, 1, 0, 0, [], []⟩ =
      some (.ok
        { (⟨1, 1, 0, 0, [], []⟩ : LoopState) with
          calls := 1
          messages := (([] : List Msg) ++ [agentTurnMsg ["A"] ⟨1, 1, 0, 0, [], []⟩ "hi"]) ++
            [⟨"orchestrator", "Moderator", (maxRoundsInterv 1).message, 1,
              "orchestrator_message"⟩]
          msgCount := 3
          interventions := ([] : List Interv) ++ [maxRoundsInterv 1] })) ∧
    (countMR (LoopState.interventions
        ⟨1, 3, 0, 1,
         [openingMsg ["Analyst"],
          ⟨"agent_0", "Analyst", "We should proceed.", 1, "agent_message"⟩,
          ⟨"orchestrator", "Moderator", (maxRoundsInterv 1).message, 1,
           "orchestrator_message"⟩],
         [maxRoundsInterv 1]⟩) ≤ 1) :=
  ⟨C6_amended.1 (fun _ => .ok (some "hi")) (fun ts => ts.map (fun _ => [1]))
      ["A"] 1 30 3 ⟨1, 1, 0, 0, [], []⟩ "hi" (by decide) (by decide) rfl (by decide),
   (C6_amended.2 (fun _ => .ok (some "We should proceed."))
      (fun ts => ts.map (fun _ => [1])) ["Analyst"] 1 30 5
      ⟨1, 1, 0, 0, [openingMsg ["Analyst"]], []⟩
      ⟨1, 3, 0, 1,
       [openingMsg ["Analyst"],
        ⟨"agent_0", "Analyst", "We should proceed.", 1, "agent_message"⟩,
        ⟨"orchestrator", "Moderator", (maxRoundsInterv 1).message, 1,
         "orchestrator_message"⟩],
       [maxRoundsInterv 1]⟩ (by decide) (by decide)).1⟩

set_option maxRecDepth 8000 in
/-- C6 counterexample: a loop in which the only turn at the ceiling round
produces an empty generation.  The guard held with the round number already
at the ceiling (`round = max_rounds = 1`), yet the loop terminates having
stored no intervention at all — the `max_rounds` intervention did not fire
even though the run reached the configured round ceiling, contradicting
the claim that it fires exactly once in every such run. -/
theorem C6_counterexample :
    debateLoop (fun _ => .ok none) (fun ts => ts.map (fun _ => [1])) ["A"] 1 30 5
        ⟨1, 1, 0, 0, [openingMsg ["A"]], []⟩ =
      some (.ok ⟨2, 1, 0, 1, [openingMsg ["A"]], []⟩) ∧
    (LoopState.round ⟨1, 1, 0, 0, [openingMsg ["A"]], []⟩ = 1 ∧ (1 : Nat) ≤ 1) ∧
    countMR (LoopState.interventions ⟨2, 1, 0, 1, [openingMsg ["A"]], []⟩) = 0 := by
  decide

end Harmony
